import Mathlib

/-!
Verification of `monitor.py` (chargepoint-mqtt): a poll/transform/publish
loop that reads an EV charger's status from the ChargePoint account API and
republishes a connectivity flag and power draw to two retained MQTT topics.

The upstream API and the MQTT client library are opaque collaborators; they
are modelled as oracles: each call either returns a value or raises
(`Except.error`). Python-specific behaviour that the code relies on
(truthiness in `or`, `dict.get` defaults, `float()` conversion that may
raise) is modelled explicitly. Floats are modelled as rationals.
-/

namespace ChargepointMqtt

/-- A value held by the `power` field of a status reply.  `pyNone` is JSON
null / Python `None`; `num q` is a numeric value on which `float()` returns
`q`; `badTruthy` stands for any truthy value on which `float()` raises
(e.g. a non-numeric non-empty string).  Falsy non-numeric values never
reach `float()` in the code because `or 0.0` replaces them first, so they
need no constructor of their own beyond `pyNone`. -/
inductive PowerVal where
  | pyNone : PowerVal
  | num : ℚ → PowerVal
  | badTruthy : PowerVal
deriving DecidableEq

/-- Python truthiness of a power-field value: `None` is falsy, a number is
truthy iff nonzero, the bad value is truthy by assumption. -/
def PowerVal.truthy : PowerVal → Bool
  | .pyNone => false
  | .num q => decide (q ≠ 0)
  | .badTruthy => true

/-- `float(x)`: `some q` when the conversion returns `q`, `none` when
`float()` raises. -/
def pyFloat : PowerVal → Option ℚ
  | .pyNone => none
  | .num q => some q
  | .badTruthy => none

/-- Python `str.upper()` (the status strings involved are ASCII, where it
agrees with per-character ASCII uppercasing). -/
def pyUpper (s : String) : String :=
  String.mk (s.data.map Char.toUpper)

/-- The status-detail reply from `get_charging_status`, a dict read through
`.get`: the `status` field (a string when present) and the `power` field
(kilowatts when present and numeric). -/
structure StatusReply where
  status : Option String
  power : Option PowerVal

/-- The upstream ChargePoint session as an oracle: `get_home_chargers`
returns a list of device ids (integers) or raises; `get_charging_status`
returns a status reply for a device id or raises. -/
structure ChargePointAPI where
  get_home_chargers : Except String (List ℤ)
  get_charging_status : ℤ → Except String StatusReply

/-- `status.get('power', 0.0) or 0.0` — the field defaulted to `0.0` when
absent, then Python `or` replaces a falsy value by `0.0`. -/
def power_or_zero (p : Option PowerVal) : PowerVal :=
  let v := p.getD (PowerVal.num 0)
  if v.truthy then v else PowerVal.num 0

/-- The try-block body of `get_charger_status` (monitor.py lines 148-177),
paired with the number of status-detail requests issued.  `Except.error`
is an exception escaping the try block. -/
def get_charger_status_core (api : ChargePointAPI) :
    Except String (ℤ × ℚ) × ℕ :=
  match api.get_home_chargers with
  | .error e => (.error e, 0)
  | .ok chargers =>
    match chargers with
    | [] => (.ok (0, 0), 0)
    | device_id :: _ =>
      match api.get_charging_status device_id with
      | .error e => (.error e, 1)
      | .ok st =>
        let charging_status := pyUpper (st.status.getD "AVAILABLE")
        let connected : ℤ :=
          if charging_status = "CHARGING" ∨ charging_status = "INUSE"
          then 1 else 0
        match pyFloat (power_or_zero st.power) with
        | none => (.error "float() raised", 1)
        | some power_kw => (.ok (connected, power_kw * 1000), 1)

/-- `get_charger_status` (monitor.py lines 140-181): the try body with the
`except Exception` handler that converts any exception into the default
`(0, 0.0)`. -/
def get_charger_status (api : ChargePointAPI) : ℤ × ℚ :=
  match (get_charger_status_core api).1 with
  | .ok r => r
  | .error _ => (0, 0)

/-- How many status-detail requests one poll issues against `api`. -/
def status_detail_calls (api : ChargePointAPI) : ℕ :=
  (get_charger_status_core api).2

/-- One broker write as handed to `mqtt_client.publish`: topic, payload,
retain flag. -/
structure PublishAction where
  topic : String
  payload : String
  retain : Bool
deriving DecidableEq

/-- The outcome of one `mqtt_client.publish` call: `ok rc` is a normal
return with paho result code `rc` (0 on success, nonzero e.g. when the
client is disconnected); `raise e` is a raised exception. -/
inductive PubOutcome where
  | ok : ℕ → PubOutcome
  | raise : String → PubOutcome
deriving DecidableEq

/-- The broker client's behaviour on the two publish calls of one
`publish_status` invocation (it subsumes every prior connectivity state:
a disconnected client returns `ok` with a nonzero code, it does not
raise). -/
structure MQTTClientBehavior where
  outcome_connected_topic : PubOutcome
  outcome_power_topic : PubOutcome

/-- Configuration surface relevant to the claims: the two topic names and
the poll interval. -/
structure Config where
  mqtt_topic_connected : String
  mqtt_topic_power : String
  poll_interval : ℤ

/-- `publish_status` (monitor.py lines 112-138): issues the two writes in
order inside a try block; `fstr` is Python `str()` on floats.  Returns the
writes actually handed to the client together with the exception escaping
the call — always `none`, because the `except Exception` handler swallows
everything.  A raise on the first write prevents the second. -/
def publish_status (cfg : Config) (b : MQTTClientBehavior)
    (fstr : ℚ → String) (connected : ℤ) (power_watts : ℚ) :
    List PublishAction × Option String :=
  let a1 : PublishAction :=
    ⟨cfg.mqtt_topic_connected, toString connected, true⟩
  match b.outcome_connected_topic with
  | .raise _ => ([a1], none)
  | .ok _ =>
    let a2 : PublishAction :=
      ⟨cfg.mqtt_topic_power, fstr power_watts, true⟩
    match b.outcome_power_topic with
    | .raise _ => ([a1, a2], none)
    | .ok _ => ([a1, a2], none)

/-- An observable event of the running process. -/
inductive Event where
  | poll : ℤ → ℚ → Event
  | pub : PublishAction → Event
  | sleep : ℤ → Event
  | loop_stop : Event
  | disconnect : Event
deriving DecidableEq

/-- Whether an event is the poll at the head of a cycle. -/
def Event.isPoll : Event → Bool
  | .poll _ _ => true
  | _ => false

/-- The collaborators' behaviour during one loop cycle. -/
structure CycleEnv where
  api : ChargePointAPI
  broker : MQTTClientBehavior

/-- The events of one RUNNING-loop iteration (monitor.py lines 193-196):
poll, the broker writes of the publish call, then the sleep for the
configured interval. -/
def cycle_events (cfg : Config) (fstr : ℚ → String) (e : CycleEnv) :
    List Event :=
  let s := get_charger_status e.api
  let writes := (publish_status cfg e.broker fstr s.1 s.2).1
  Event.poll s.1 s.2 :: (writes.map Event.pub ++ [Event.sleep cfg.poll_interval])

/-- `run` (monitor.py lines 192-202) from loop entry to process exit: the
loop runs one cycle per environment in `envs`, a KeyboardInterrupt arrives
during the sleep of the last one, and the finally block stops the client
loop and disconnects.  Returns the event trace and the process exit
status (0: the interrupt is caught and `run` returns normally). -/
def run (cfg : Config) (fstr : ℚ → String) (envs : List CycleEnv) :
    List Event × ℤ :=
  ((envs.map (cycle_events cfg fstr)).flatten
    ++ [Event.loop_stop, Event.disconnect], 0)

/-- Python truthiness of an optional string (an unset environment variable
is `None`, falsy; an empty string is falsy too). -/
def truthyStr : Option String → Bool
  | none => false
  | some s => decide (s ≠ "")

/-- Startup-time collaborator behaviour: the two credential environment
variables, the outcome of `mqtt_client.connect`, and the outcome of the
`ChargePoint(...)` login. -/
structure StartupEnv where
  cp_username : Option String
  cp_password : Option String
  mqtt_connect : Except String Unit
  cp_login : Except String Unit

/-- How startup ends: `exited code m c` is a `sys.exit(code)` after `m`
broker-connect attempts and `c` login attempts; `running m c` means the
polling loop is entered. -/
inductive StartupResult where
  | exited : ℤ → ℕ → ℕ → StartupResult
  | running : ℕ → ℕ → StartupResult
deriving DecidableEq

/-- The startup sequence: the `__init__` credential check (monitor.py
lines 56-58, `sys.exit(1)` when either credential is falsy), then
`setup_mqtt` (lines 83-89, `sys.exit(1)` when `connect` raises), then
`setup_chargepoint` (lines 105-110, `sys.exit(1)` when login raises). -/
def startup (env : StartupEnv) : StartupResult :=
  if truthyStr env.cp_username && truthyStr env.cp_password then
    match env.mqtt_connect with
    | .error _ => .exited 1 1 0
    | .ok _ =>
      match env.cp_login with
      | .error _ => .exited 1 1 1
      | .ok _ => .running 1 1
  else .exited 1 0 0

/-! Concrete collaborator behaviours used by witnesses and counterexamples. -/

def apiA : ChargePointAPI :=
  ⟨.ok [1], fun _ => .ok ⟨some "CHARGING", some (.num (36/5))⟩⟩

def apiB : ChargePointAPI :=
  ⟨.ok [1], fun _ => .ok ⟨some "AVAILABLE", some (.num 0)⟩⟩

def apiLower : ChargePointAPI :=
  ⟨.ok [1], fun _ => .ok ⟨some "inUse", some (.num 1)⟩⟩

def apiErr : ChargePointAPI :=
  ⟨.error "network", fun _ => .error "network"⟩

def apiMixed : ChargePointAPI :=
  ⟨.ok [1], fun _ => .ok ⟨some "CHARGING", some .badTruthy⟩⟩

def apiNeg : ChargePointAPI :=
  ⟨.ok [1], fun _ => .ok ⟨some "CHARGING", some (.num (-1))⟩⟩

def apiEmpty : ChargePointAPI :=
  ⟨.ok [], fun _ => .ok ⟨none, none⟩⟩

/-! Helper lemmas shared by the claim proofs. -/

/-- On a numeric power field the `or 0.0` guard is the identity up to
`float()`: the conversion yields the number itself (a zero reading is
replaced by the default `0.0`, which converts to the same value). -/
theorem pyFloat_power_or_zero_num (k : ℚ) :
    pyFloat (power_or_zero (some (PowerVal.num k))) = some k := by
  by_cases h : k = 0 <;>
    simp [power_or_zero, PowerVal.truthy, pyFloat, h]

/-- Evaluation of one poll when the listing and the status call succeed and
the power field converts: the result is the status collapse paired with the
kilowatt value times 1000. -/
theorem get_charger_status_ok (api : ChargePointAPI) (d : ℤ) (rest : List ℤ)
    (reply : StatusReply) (k : ℚ)
    (hc : api.get_home_chargers = .ok (d :: rest))
    (hs : api.get_charging_status d = .ok reply)
    (hp : pyFloat (power_or_zero reply.power) = some k) :
    get_charger_status api =
      (if pyUpper (reply.status.getD "AVAILABLE") = "CHARGING" ∨
          pyUpper (reply.status.getD "AVAILABLE") = "INUSE"
        then (1 : ℤ) else 0, k * 1000) := by
  simp [get_charger_status, get_charger_status_core, hc, hs, hp]

/-- Claim C1: for every upstream status reply, `connected` resolves to 1
exactly when the status string field, uppercased, equals CHARGING or INUSE;
any other string, and an absent status field (defaulted to AVAILABLE),
resolves it to 0. -/
theorem c1_connected_iff_charging_or_inuse
    (api : ChargePointAPI) (d : ℤ) (rest : List ℤ)
    (reply : StatusReply) (k : ℚ)
    (hc : api.get_home_chargers = .ok (d :: rest))
    (hs : api.get_charging_status d = .ok reply)
    (hp : pyFloat (power_or_zero reply.power) = some k) :
    ((get_charger_status api).1 = 1 ↔
      (pyUpper (reply.status.getD "AVAILABLE") = "CHARGING" ∨
       pyUpper (reply.status.getD "AVAILABLE") = "INUSE")) ∧
    ((get_charger_status api).1 = 0 ↔
      ¬ (pyUpper (reply.status.getD "AVAILABLE") = "CHARGING" ∨
         pyUpper (reply.status.getD "AVAILABLE") = "INUSE")) ∧
    (reply.status = none → (get_charger_status api).1 = 0) := by
  rw [get_charger_status_ok api d rest reply k hc hs hp]
  by_cases h : pyUpper (reply.status.getD "AVAILABLE") = "CHARGING" ∨
      pyUpper (reply.status.getD "AVAILABLE") = "INUSE"
  · refine ⟨by simp [h], by simp [h], ?_⟩
    intro habs
    rw [habs] at h
    exact absurd h (by decide)
  · exact ⟨by simp [h], by simp [h], fun _ => by simp [h]⟩

/-- Witness for C1 at a concrete input: a mixed-case "inUse" status with a
1 kW reading resolves `connected` to 1. -/
theorem c1_witness :
    ((get_charger_status apiLower).1 = 1 ↔
      (pyUpper ((some "inUse").getD "AVAILABLE") = "CHARGING" ∨
       pyUpper ((some "inUse").getD "AVAILABLE") = "INUSE")) ∧
    ((get_charger_status apiLower).1 = 0 ↔
      ¬ (pyUpper ((some "inUse").getD "AVAILABLE") = "CHARGING" ∨
         pyUpper ((some "inUse").getD "AVAILABLE") = "INUSE")) ∧
    ((some "inUse" : Option String) = none →
      (get_charger_status apiLower).1 = 0) :=
  c1_connected_iff_charging_or_inuse apiLower 1 []
    ⟨some "inUse", some (.num 1)⟩ 1 rfl rfl (pyFloat_power_or_zero_num 1)

/-- Claim C2: a non-negative kilowatt reading k yields
`power_watts = k * 1000`; a missing or null power field yields 0.0. -/
theorem c2_power_kw_to_watts
    (api : ChargePointAPI) (d : ℤ) (rest : List ℤ) (reply : StatusReply)
    (hc : api.get_home_chargers = .ok (d :: rest))
    (hs : api.get_charging_status d = .ok reply) :
    (∀ k : ℚ, 0 ≤ k → reply.power = some (PowerVal.num k) →
      (get_charger_status api).2 = k * 1000) ∧
    (reply.power = none → (get_charger_status api).2 = 0) ∧
    (reply.power = some PowerVal.pyNone → (get_charger_status api).2 = 0) := by
  refine ⟨?_, ?_, ?_⟩
  · intro k _ hk
    rw [get_charger_status_ok api d rest reply k hc hs
      (by rw [hk]; exact pyFloat_power_or_zero_num k)]
  · intro hk
    rw [get_charger_status_ok api d rest reply 0 hc hs
      (by rw [hk]; rfl)]
    simp
  · intro hk
    rw [get_charger_status_ok api d rest reply 0 hc hs
      (by rw [hk]; rfl)]
    simp

/-- Witness for C2 at a concrete input: a 7.2 kW reading yields 7200 W. -/
theorem c2_witness : (get_charger_status apiA).2 = (36 / 5 : ℚ) * 1000 :=
  (c2_power_kw_to_watts apiA 1 [] ⟨some "CHARGING", some (.num (36 / 5))⟩
    rfl rfl).1 (36 / 5) (by norm_num) rfl

/-- Claim C4: an empty upstream charger listing yields exactly the default
snapshot and issues no status-detail request. -/
theorem c4_empty_listing (api : ChargePointAPI)
    (h : api.get_home_chargers = .ok []) :
    get_charger_status api = (0, 0) ∧ status_detail_calls api = 0 := by
  simp [get_charger_status, get_charger_status_core, status_detail_calls, h]

/-- Witness for C4 at a concrete input: an API whose listing is empty. -/
theorem c4_witness :
    get_charger_status apiEmpty = (0, 0) ∧ status_detail_calls apiEmpty = 0 :=
  c4_empty_listing apiEmpty rfl

/-- Claim C3: the poll never propagates an error — it is a total function
whose `connected` component is always the well-formed 0 or 1, and whenever
the try body raises (any upstream failure or malformed reply) the result is
exactly the default `(0, 0.0)`. -/
theorem c3_poll_never_raises (api : ChargePointAPI) :
    ((get_charger_status api).1 = 0 ∨ (get_charger_status api).1 = 1) ∧
    (∀ e, (get_charger_status_core api).1 = .error e →
      get_charger_status api = (0, 0)) := by
  constructor
  · rcases hgc : api.get_home_chargers with e | chargers
    · simp [get_charger_status, get_charger_status_core, hgc]
    · rcases chargers with _ | ⟨d, rest⟩
      · simp [get_charger_status, get_charger_status_core, hgc]
      · rcases hst : api.get_charging_status d with e | reply
        · simp [get_charger_status, get_charger_status_core, hgc, hst]
        · rcases hpf : pyFloat (power_or_zero reply.power) with _ | k
          · simp [get_charger_status, get_charger_status_core, hgc, hst, hpf]
          · simp only [get_charger_status, get_charger_status_core, hgc,
              hst, hpf]
            split <;> simp
  · intro e he
    unfold get_charger_status
    rw [he]

/-- Witness for C3 at a concrete input: a listing call that raises yields
the default snapshot. -/
theorem c3_witness :
    ((get_charger_status apiErr).1 = 0 ∨ (get_charger_status apiErr).1 = 1) ∧
    get_charger_status apiErr = (0, 0) :=
  ⟨(c3_poll_never_raises apiErr).1,
    (c3_poll_never_raises apiErr).2 "network" rfl⟩

/-- Counterexample to C7 as stated: a reply whose power field holds the
negative reading -1 kW produces `power_watts = -1000`, which is negative —
the code performs no clamping, so the snapshot's power is not non-negative
for every upstream reply. -/
theorem c7_counterexample :
    (get_charger_status apiNeg).2 = -1000 ∧
    ¬ (0 ≤ (get_charger_status apiNeg).2) := by
  have h : get_charger_status apiNeg = (1, -1000) := by
    simp [get_charger_status, get_charger_status_core, apiNeg, pyUpper,
      power_or_zero, PowerVal.truthy, pyFloat]
  rw [h]
  norm_num

/-- Claim C7 (amended): whenever every kilowatt reading the upstream hands
back converts to a non-negative number, the snapshot's `power_watts` is
non-negative; on every failure path it is 0. -/
theorem c7_power_watts_nonneg (api : ChargePointAPI)
    (h : ∀ d reply, api.get_charging_status d = .ok reply →
      ∀ k : ℚ, pyFloat (power_or_zero reply.power) = some k → 0 ≤ k) :
    0 ≤ (get_charger_status api).2 := by
  rcases hgc : api.get_home_chargers with e | chargers
  · simp [get_charger_status, get_charger_status_core, hgc]
  · rcases chargers with _ | ⟨d, rest⟩
    · simp [get_charger_status, get_charger_status_core, hgc]
    · rcases hst : api.get_charging_status d with e | reply
      · simp [get_charger_status, get_charger_status_core, hgc, hst]
      · rcases hpf : pyFloat (power_or_zero reply.power) with _ | k
        · simp [get_charger_status, get_charger_status_core, hgc, hst, hpf]
        · simp only [get_charger_status, get_charger_status_core, hgc,
            hst, hpf]
          have hk : 0 ≤ k := h d reply hst k hpf
          have hkw : (0 : ℚ) ≤ k * 1000 := by positivity
          exact hkw

/-- Witness for C7 (amended) at a concrete input: a 0 kW reading gives a
non-negative wattage. -/
theorem c7_witness : 0 ≤ (get_charger_status apiB).2 :=
  c7_power_watts_nonneg apiB (by
    intro d reply hr k hk
    rw [show apiB.get_charging_status d =
      .ok ⟨some "AVAILABLE", some (.num 0)⟩ from rfl] at hr
    cases hr
    rw [show pyFloat (power_or_zero (some (PowerVal.num 0))) = some 0
      from rfl] at hk
    cases hk
    exact le_refl 0)

/-- Claim C10: the poll is all-or-default — once the listing has succeeded,
a failure at any later step (the status-detail call raising, or the power
field failing `float()` conversion after `connected` was already computed)
discards every partially derived value and returns the full default
snapshot. -/
theorem c10_all_or_default (api : ChargePointAPI) (d : ℤ) (rest : List ℤ)
    (hc : api.get_home_chargers = .ok (d :: rest)) :
    (∀ e, api.get_charging_status d = .error e →
      get_charger_status api = (0, 0)) ∧
    (∀ reply, api.get_charging_status d = .ok reply →
      pyFloat (power_or_zero reply.power) = none →
      get_charger_status api = (0, 0)) := by
  constructor
  · intro e he
    simp [get_charger_status, get_charger_status_core, hc, he]
  · intro reply hr hp
    simp [get_charger_status, get_charger_status_core, hc, hr, hp]

/-- Witness for C10 at a concrete input: a CHARGING status paired with an
unconvertible power value yields the full default, not `(1, 0)`. -/
theorem c10_witness : get_charger_status apiMixed = (0, 0) :=
  (c10_all_or_default apiMixed 1 [] rfl).2
    ⟨some "CHARGING", some .badTruthy⟩ rfl rfl

/-- Claim C5: one `publish_status` call hands exactly two writes to the
broker client — the connectivity topic carrying `str(connected)` (which is
"0" or "1" for the 0/1 flag the poller produces) and the power topic
carrying `str(power_watts)` — both with the retain flag set, whatever the
prior connectivity state (a disconnected paho client returns an error code
from `publish`, it does not raise). -/
theorem c5_two_retained_writes (cfg : Config) (b : MQTTClientBehavior)
    (fstr : ℚ → String) (connected : ℤ) (power_watts : ℚ)
    (hb : ∀ e, b.outcome_connected_topic ≠ PubOutcome.raise e)
    (hc : connected = 0 ∨ connected = 1) :
    (publish_status cfg b fstr connected power_watts).1 =
      [⟨cfg.mqtt_topic_connected, toString connected, true⟩,
       ⟨cfg.mqtt_topic_power, fstr power_watts, true⟩] ∧
    (publish_status cfg b fstr connected power_watts).1.length = 2 ∧
    (∀ a ∈ (publish_status cfg b fstr connected power_watts).1,
      a.retain = true) ∧
    (toString connected = "0" ∨ toString connected = "1") := by
  have hw : (publish_status cfg b fstr connected power_watts).1 =
      [⟨cfg.mqtt_topic_connected, toString connected, true⟩,
       ⟨cfg.mqtt_topic_power, fstr power_watts, true⟩] := by
    rcases h1 : b.outcome_connected_topic with rc | e
    · rcases h2 : b.outcome_power_topic with rc2 | e2 <;>
        simp [publish_status, h1, h2]
    · exact absurd h1 (hb e)
  refine ⟨hw, by rw [hw]; rfl, ?_, ?_⟩
  · intro a ha
    rw [hw] at ha
    simp only [List.mem_cons, List.not_mem_nil, or_false] at ha
    rcases ha with ha | ha <;> rw [ha]
  · rcases hc with h | h <;> rw [h]
    · exact Or.inl rfl
    · exact Or.inr rfl

def cfgW : Config := ⟨"chargepoint/connected", "chargepoint/power", 60⟩

def brokerOk : MQTTClientBehavior := ⟨.ok 0, .ok 0⟩

def fstrW : ℚ → String := fun _ => "7200.0"

/-- Witness for C5 at a concrete input: default topics, a connected client,
`connected = 1`. -/
theorem c5_witness :
    (publish_status cfgW brokerOk fstrW 1 7200).1 =
      [⟨cfgW.mqtt_topic_connected, toString (1 : ℤ), true⟩,
       ⟨cfgW.mqtt_topic_power, fstrW 7200, true⟩] ∧
    (publish_status cfgW brokerOk fstrW 1 7200).1.length = 2 ∧
    (∀ a ∈ (publish_status cfgW brokerOk fstrW 1 7200).1,
      a.retain = true) ∧
    (toString (1 : ℤ) = "0" ∨ toString (1 : ℤ) = "1") :=
  c5_two_retained_writes cfgW brokerOk fstrW 1 7200
    (fun e h => PubOutcome.noConfusion h) (Or.inr rfl)

/-- Each loop cycle contains exactly one poll event. -/
theorem cycle_events_one_poll (cfg : Config) (fstr : ℚ → String)
    (e : CycleEnv) :
    ((cycle_events cfg fstr e).filter Event.isPoll).length = 1 := by
  simp [cycle_events, Event.isPoll, List.filter_append, List.filter_map]

/-- The cycles of a run contain one poll event per scheduled cycle. -/
theorem run_polls_per_cycle (cfg : Config) (fstr : ℚ → String)
    (envs : List CycleEnv) :
    (((envs.map (cycle_events cfg fstr)).flatten).filter
      Event.isPoll).length = envs.length := by
  induction envs with
  | nil => rfl
  | cons e es ih =>
    rw [List.map_cons, List.flatten_cons, List.filter_append,
      List.length_append, cycle_events_one_poll, ih, List.length_cons]
    omega

/-- Claim C6: an error raised by a broker publish call never escapes
`publish_status`, and the driving loop is not halted by it — every
scheduled cycle still polls, and every cycle ends with the sleep for the
configured interval. -/
theorem c6_publish_error_contained (cfg : Config) (fstr : ℚ → String) :
    (∀ (b : MQTTClientBehavior) (c : ℤ) (pw : ℚ),
      (publish_status cfg b fstr c pw).2 = none) ∧
    (∀ envs : List CycleEnv,
      ((run cfg fstr envs).1.filter Event.isPoll).length = envs.length) ∧
    (∀ e : CycleEnv, (cycle_events cfg fstr e).getLast? =
      some (Event.sleep cfg.poll_interval)) := by
  refine ⟨?_, ?_, ?_⟩
  · intro b c pw
    rcases h1 : b.outcome_connected_topic with rc | e
    · rcases h2 : b.outcome_power_topic with rc2 | e2 <;>
        simp [publish_status, h1, h2]
    · simp [publish_status, h1]
  · intro envs
    have hr : (run cfg fstr envs).1 =
        (envs.map (cycle_events cfg fstr)).flatten ++
          [Event.loop_stop, Event.disconnect] := rfl
    rw [hr, List.filter_append, List.length_append,
      run_polls_per_cycle]
    simp [Event.isPoll]
  · intro e
    show ((Event.poll (get_charger_status e.api).1
        (get_charger_status e.api).2 ::
      ((publish_status cfg e.broker fstr (get_charger_status e.api).1
        (get_charger_status e.api).2).1.map Event.pub)) ++
      [Event.sleep cfg.poll_interval]).getLast? =
      some (Event.sleep cfg.poll_interval)
    rw [List.getLast?_concat]

/-- Claim C9: an interrupt during the sleep phase ends the loop — the run
trace is the cycles followed by exactly the shutdown actions (stop the
client's background loop, then disconnect), every broker write of the
whole run lies before those shutdown actions, and the process exit status
is 0. -/
theorem c9_interrupt_shutdown (cfg : Config) (fstr : ℚ → String)
    (envs : List CycleEnv) :
    (run cfg fstr envs).2 = 0 ∧
    ∃ pre, (run cfg fstr envs).1 =
        pre ++ [Event.loop_stop, Event.disconnect] ∧
      ∀ a : PublishAction,
        Event.pub a ∈ (run cfg fstr envs).1 → Event.pub a ∈ pre := by
  refine ⟨rfl, (envs.map (cycle_events cfg fstr)).flatten, rfl, ?_⟩
  intro a ha
  rw [show (run cfg fstr envs).1 =
    (envs.map (cycle_events cfg fstr)).flatten ++
      [Event.loop_stop, Event.disconnect] from rfl] at ha
  rcases List.mem_append.mp ha with h | h
  · exact h
  · simp at h

/-- Claim C8: a missing credential, a failed broker connect, or a failed
upstream login each makes startup exit with status 1 before the loop is
entered, with each connection attempted at most once (no retry). -/
theorem c8_fatal_startup (env : StartupEnv)
    (h : (truthyStr env.cp_username && truthyStr env.cp_password) = false
      ∨ (∃ e, env.mqtt_connect = .error e)
      ∨ (∃ e, env.cp_login = .error e)) :
    ∃ m c : ℕ, startup env = .exited 1 m c ∧ m ≤ 1 ∧ c ≤ 1 := by
  by_cases hcred :
      (truthyStr env.cp_username && truthyStr env.cp_password) = true
  · rcases hmq : env.mqtt_connect with e | u
    · exact ⟨1, 0, by simp [startup, hcred, hmq], by norm_num, by norm_num⟩
    · rcases hcp : env.cp_login with e | u
      · exact ⟨1, 1, by simp [startup, hcred, hmq, hcp], by norm_num,
          by norm_num⟩
      · rcases h with h | ⟨e, he⟩ | ⟨e, he⟩
        · rw [hcred] at h
          cases h
        · rw [hmq] at he
          cases he
        · rw [hcp] at he
          cases he
  · exact ⟨0, 0, by simp [startup, Bool.not_eq_true _ ▸ hcred,
      eq_false_of_ne_true hcred], by norm_num, by norm_num⟩

def envNoUser : StartupEnv := ⟨none, some "pw", .ok (), .ok ()⟩

/-- Witness for C8 at a concrete input: the username variable is unset. -/
theorem c8_witness :
    ∃ m c : ℕ, startup envNoUser = .exited 1 m c ∧ m ≤ 1 ∧ c ≤ 1 :=
  c8_fatal_startup envNoUser (Or.inl rfl)

end ChargepointMqtt
